import Mathlib

/-!
Verification of the string- and table-munging core of the
premier-league-spending-success repository: season-label normalisation
(01_data_preparation.py), column-name reconciliation (01_data_preparation.py),
type coercion (02_analysis.py), regression preprocessing (03_regression.py),
and the FBref wage scraper's parsing utilities and main loop
(data/scripts/get_fbref_wages.py).

Strings are embedded as `List Char`.  Python's `str.strip` / `str.replace` /
`str.lower` are modelled character-wise; the regular expressions used by the
scripts (all anchored, over explicit digit/hyphen shapes) are modelled as
pattern matches over the character list.  Monetary values parsed from strings
are modelled as exact rationals.
-/

namespace PLSpend

/-- Python `str.strip()` on the left: drop leading whitespace. -/
def lstripWs (l : List Char) : List Char := l.dropWhile Char.isWhitespace

/-- Python `str.strip()` on the right: drop trailing whitespace. -/
def rstripWs (l : List Char) : List Char := l.rdropWhile Char.isWhitespace

/-- Python `str.strip()`: drop leading and trailing whitespace. -/
def pyStrip (l : List Char) : List Char := rstripWs (lstripWs l)

/-- Python `str.replace(a, b)` where `a` and `b` are single characters:
replaces every occurrence of `a` by `b`. -/
def pyReplaceChar (a b : Char) (l : List Char) : List Char :=
  l.map (fun c => if c = a then b else c)

/-- Python `str.replace(a, "")` for a single-character pattern `a`:
removes every occurrence of `a`. -/
def pyRemoveChar (a : Char) (l : List Char) : List Char :=
  l.filter (fun c => c ≠ a)

/-- Python `str.lower()` (ASCII case folding, which covers every string
the scripts compare against). -/
def pyLower (l : List Char) : List Char := l.map Char.toLower

/-- The en-dash character `U+2013` that `normalise_season_value` converts
to a hyphen. -/
def enDash : Char := '–'

/-- Regex `^(\d{2})-(\d{2})$` of `normalise_season_value`
(01_data_preparation.py): exactly two digits, a hyphen, two digits. -/
def matchDDdashDD : List Char → Bool
  | [a, b, h, c, d] => a.isDigit && b.isDigit && (h == '-') && c.isDigit && d.isDigit
  | _ => false

/-- Regex `^\d{4}-\d{2}$` of `normalise_season_value`
(01_data_preparation.py): four digits, a hyphen, two digits.  The branch it
guards in the source is dead code (see `normalise_season_value`), so the
function below never consults it; it is kept to document the source. -/
def matchYYYYdashYY : List Char → Bool
  | [a, b, c, d, h, e, g] =>
    a.isDigit && b.isDigit && c.isDigit && d.isDigit && (h == '-') && e.isDigit && g.isDigit
  | _ => false

/-- The preprocessing line of `normalise_season_value`:
`s = str(s).strip().replace("–", "-")` — strip whitespace, then turn every
en-dash into a hyphen. -/
def normPre (s : List Char) : List Char := pyReplaceChar enDash '-' (pyStrip s)

/-- Result of `pd.Series([s]).str.extract(r"^(\d{2})-(\d{2})$").iloc[0].tolist()`
in `normalise_season_value`, as the pair of strings the f-string renders: on a
match of the anchored 5-character pattern the two captured groups — the first
two and the last two characters of the match — and on a non-match the two
NaN cells, each rendered by the f-string as "nan" (pandas `str.extract` gives
NaN, not `None`, for non-matches). -/
def extractDDdashDD (t : List Char) : List Char × List Char :=
  if matchDDdashDD t then (t.take 2, t.drop 3)
  else (("nan").data, ("nan").data)

/-- Function `normalise_season_value` from 01_data_preparation.py.  After the
preprocessing `normPre`, the source tests `m[0] is not None and m[1] is not
None` on the extraction result; since pandas `str.extract` returns NaN (not
`None`) on non-matching input and `nan is not None` holds, that guard is
always true, so the function always returns `f"20{m[0]}-{m[1]}"` — `"20"`
followed by the first group, a hyphen and the second group, which on a match
of the whole 5-character string equals `'2' :: '0' ::` the matched string and
on a non-match is `"20nan-nan"`.  The `^\d{4}-\d{2}$` pass-through branch and
the final `return s` are dead code. -/
def normalise_season_value (s : List Char) : List Char :=
  let t := normPre s
  let m := extractDDdashDD t
  ("20").data ++ m.1 ++ '-' :: m.2

/-- Digit string to number, as Python `int` on a string of digits. -/
def digitsToNat (l : List Char) : Nat := l.foldl (fun n c => 10 * n + (c.toNat - 48)) 0

/-- Regex `^(\d{4})-(\d{4})$` of `make_season_list` and `season_slug`
(get_fbref_wages.py), returning `(int(group(1)), int(group(2)))` on a match. -/
def matchYYYYdashYYYY : List Char → Option (Nat × Nat)
  | [a, b, c, d, h, e, g, i, j] =>
    if a.isDigit && b.isDigit && c.isDigit && d.isDigit && (h == '-')
        && e.isDigit && g.isDigit && i.isDigit && j.isDigit then
      some (digitsToNat [a, b, c, d], digitsToNat [e, g, i, j])
    else none
  | _ => none

/-- Decimal rendering of a natural number, as Python `f"{y}"`. -/
def natDigits (y : Nat) : List Char := Nat.toDigits 10 y

/-- The season string `f"{y}-{y+1}"` built by `make_season_list`. -/
def seasonStr (y : Nat) : List Char := natDigits y ++ '-' :: natDigits (y + 1)

/-- The two `ValueError`s `make_season_list` can raise: `format` is
"Seasons must be in YYYY-YYYY format", `range` is
"End season must be after start season". -/
inductive SeasonListError where
  | format
  | range
  deriving DecidableEq, Repr

/-- Function `make_season_list` from get_fbref_wages.py: match both bounds against
`^(\d{4})-(\d{4})$` (else the format error), take the first year of each,
raise the range error when the end year precedes the start year, otherwise
return `[f"{y}-{y+1}" for y in range(start_year, end_year + 1)]`. -/
def make_season_list (start_season end_season : List Char) :
    Except SeasonListError (List (List Char)) :=
  match matchYYYYdashYYYY start_season, matchYYYYdashYYYY end_season with
  | some sm, some em =>
    let start_year := sm.1
    let end_year := em.1
    if end_year < start_year then .error .range
    else .ok ((List.range' start_year (end_year + 1 - start_year)).map seasonStr)
  | _, _ => .error .format

/-- An exact decimal amount `mantissa / 10 ^ scale`.  The source works with
Python `float`s; the decimal literals it parses are modelled by their exact
values, kept unreduced as a mantissa and a power-of-ten scale so that the
parser stays a pure computation over naturals. -/
structure DecValue where
  mantissa : Nat
  scale : Nat
  deriving DecidableEq, Repr

/-- The rational number an exact decimal amount denotes. -/
def DecValue.toRat (v : DecValue) : ℚ := (v.mantissa : ℚ) / ((10 : ℕ) : ℚ) ^ v.scale

/-- The regex `^\d+(\.\d+)?$` of `parse_money_to_gbp` (get_fbref_wages.py),
returning the exact value of the decimal literal on a match
(`float(s)` in the source). -/
def matchPlainNumber (l : List Char) : Option DecValue :=
  let intPart := l.takeWhile Char.isDigit
  let rest := l.dropWhile Char.isDigit
  if intPart.isEmpty then none
  else
    match rest with
    | [] => some ⟨digitsToNat intPart, 0⟩
    | '.' :: fr =>
      if !fr.isEmpty && fr.all Char.isDigit then
        some ⟨digitsToNat intPart * 10 ^ fr.length + digitsToNat fr, fr.length⟩
      else none
    | _ => none

/-- The regex `^(\d+(\.\d+)?)\s*[mM]$` of `parse_money_to_gbp`: a decimal
number, optional whitespace, then `m` or `M` at the end; returns the value of
the numeric group. -/
def matchMSuffix (l : List Char) : Option DecValue :=
  match l.getLast? with
  | some c =>
    if c = 'm' ∨ c = 'M' then matchPlainNumber (rstripWs l.dropLast) else none
  | none => none

/-- Multiplication by 1,000,000, the `* 1_000_000` of the `m`-suffix branch. -/
def DecValue.timesMillion (v : DecValue) : DecValue := ⟨v.mantissa * 1000000, v.scale⟩

/-- Guard `s == "" or s.lower() in (nan, none)` — the missing-cell guard of
`parse_money_to_gbp`, applied to the stripped string. -/
def money_missing_guard (s0 : List Char) : Bool :=
  s0.isEmpty || pyLower s0 == ("nan").data || pyLower s0 == ("none").data

/-- Cleanup `s.replace(pound, empty).replace(comma, empty).strip()` — the currency-symbol and
comma stripping of `parse_money_to_gbp`, applied to the stripped string. -/
def money_clean (s0 : List Char) : List Char :=
  pyStrip (pyRemoveChar ',' (pyRemoveChar '£' s0))

/-- Function `parse_money_to_gbp` from get_fbref_wages.py, on a string cell (the
`pd.isna` guard concerns non-string missing cells and is outside the string
domain modelled here): strip; return `None` for the empty string and for
`"nan"`/`"none"` case-insensitively; remove `£` and `,` and strip again;
`^(\d+(\.\d+)?)\s*[mM]$` gives the number times 1,000,000; `^\d+(\.\d+)?$`
gives the plain value; anything else gives `None`. -/
def parse_money_to_gbp (value : List Char) : Option DecValue :=
  let s0 := pyStrip value
  if money_missing_guard s0 then none
  else
    let s := money_clean s0
    match matchMSuffix s with
    | some q => some q.timesMillion
    | none => matchPlainNumber s

/-- The parsed GBP amount as a rational, for stating claims about values. -/
def parse_money_to_gbp_val (value : List Char) : Option ℚ :=
  (parse_money_to_gbp value).map DecValue.toRat

/-- Substring test: Python `pat in l` for strings. -/
def containsSub (pat l : List Char) : Bool :=
  (List.range (l.length + 1)).any (fun i => (l.drop i).take pat.length == pat)

/-- Test `"club" in c.lower()` — the club-column candidate test of the sheet loop
in 01_data_preparation.py (column names are already stripped there). -/
def isClubLike (c : List Char) : Bool := containsSub ("club").data (pyLower c)

/-- Test `"promot" in c.lower()` — the promotion-column candidate test. -/
def isPromotLike (c : List Char) : Bool := containsSub ("promot").data (pyLower c)

/-- Test `"transfer" in c.lower() and ("spend" in c.lower() or "expend" in c.lower())`
— the transfer-spend candidate test. -/
def isSpendLike (c : List Char) : Bool :=
  containsSub ("transfer").data (pyLower c) &&
    (containsSub ("spend").data (pyLower c) || containsSub ("expend").data (pyLower c))

/-- Rename `df.rename(columns = dict old to new)` on the column-name list: every column
named exactly `old` gets the name `new`. -/
def renameCol (old new : List Char) (cols : List (List Char)) : List (List Char) :=
  cols.map (fun c => if c = old then new else c)

/-- The club standardisation of the sheet loop: when no column is named
exactly "club", rename the first column whose lowercased name contains
"club" (`club_like[0]`), if any. -/
def stdClub (cols : List (List Char)) : List (List Char) :=
  if ("club").data ∈ cols then cols
  else
    match cols.filter isClubLike with
    | [] => cols
    | c :: _ => renameCol c ("club").data cols

/-- The promoted standardisation: rename the first "promot"-containing
column to "promoted" unless that first candidate is already named
"promoted" (`prom_like and prom_like[0] != "promoted"`). -/
def stdPromoted (cols : List (List Char)) : List (List Char) :=
  match cols.filter isPromotLike with
  | [] => cols
  | c :: _ => if c = ("promoted").data then cols else renameCol c ("promoted").data cols

/-- The transfer-spend standardisation, analogous to `stdPromoted`. -/
def stdSpend (cols : List (List Char)) : List (List Char) :=
  match cols.filter isSpendLike with
  | [] => cols
  | c :: _ =>
    if c = ("gross_transfer_spend_gbp_m").data then cols
    else renameCol c ("gross_transfer_spend_gbp_m").data cols

/-- The three renaming steps of the sheet loop in source order. -/
def standardise_sheet_columns (cols : List (List Char)) : List (List Char) :=
  stdSpend (stdPromoted (stdClub cols))

/-- Test `str(c).strip().lower() in ("squad", "club", "team")` — the club-column
test of `find_wages_table` (get_fbref_wages.py). -/
def isClubCol (c : List Char) : Bool :=
  pyLower (pyStrip c) == ("squad").data || pyLower (pyStrip c) == ("club").data
    || pyLower (pyStrip c) == ("team").data

/-- The annual-wages-column test of `find_wages_table`: the loop body appends
`c` when `"annual" in cl and "wage" in cl` and again when
`cl in {"annual wages", "annual_wages"}` (with `cl = str(c).strip().lower()`);
a column is a candidate iff either test holds, and the first candidate in
column order is the first column passing the disjunction. -/
def isWageCol (c : List Char) : Bool :=
  let cl := pyLower (pyStrip c)
  (containsSub ("annual").data cl && containsSub ("wage").data cl)
    || cl == ("annual wages").data || cl == ("annual_wages").data

/-- Function `find_wages_table` from get_fbref_wages.py, over tables represented by
their column-name lists (the only part of a table the function inspects):
scan the list in order, skip tables with no club-column candidate, and on the
first table that also has an annual-wages candidate return that table with
its first wage candidate (`wage_col_candidates[0]`).  `none` models the
`RuntimeError` raised when no table qualifies. -/
def find_wages_table : List (List (List Char)) → Option (List (List Char) × List Char)
  | [] => none
  | t :: rest =>
    if t.any isClubCol then
      match t.filter isWageCol with
      | [] => find_wages_table rest
      | c :: _ => some (t, c)
    else find_wages_table rest

/-- One row of the analysis-ready table after `pd.to_numeric(..., errors="coerce")`
on the key columns: each cell is a parsed rational or missing (`NaN`,
covering both absent and unparseable raw cells). -/
structure DataRow where
  points_total : Option ℚ
  league_position : Option ℚ
  total_wage_bill_gbp_m : Option ℚ
  gross_transfer_spend_gbp_m : Option ℚ
  promoted : Option ℚ
  deriving DecidableEq, Repr

/-- Python `astype(int)` on a float value: truncation toward zero. -/
def ratTrunc (q : ℚ) : ℤ := q.num.tdiv q.den

/-- Assignment `df["promoted"] = df["promoted"].fillna(0).astype(int)` from
02_analysis.py, applied to the promoted column after the `pd.to_numeric`
coercion loop: each missing entry becomes 0, every entry becomes an integer. -/
def analysis_promoted_clean (col : List (Option ℚ)) : List ℤ :=
  col.map (fun v => ratTrunc (v.getD 0))

/-- Assignment `df["promoted"] = pd.to_numeric(df["promoted"], errors="coerce").fillna(0).astype(int)`
from 03_regression.py, applied to the coerced promoted column. -/
def regression_promoted_clean (col : List (Option ℚ)) : List ℤ :=
  col.map (fun v => ratTrunc (v.getD 0))

/-- The row-level fills of 03_regression.py in source order:
`df["gross_transfer_spend_gbp_m"].fillna(0)` and
`pd.to_numeric(df["promoted"], errors="coerce").fillna(0).astype(int)`
(the integer stored back as the column value). -/
def regression_fill (r : DataRow) : DataRow :=
  { r with
    gross_transfer_spend_gbp_m := some (r.gross_transfer_spend_gbp_m.getD 0)
    promoted := some ((ratTrunc (r.promoted.getD 0) : ℤ) : ℚ) }

/-- The whole preprocessing of 03_regression.py before any model is fit:
the `pd.to_numeric` coercions (identity on the already-numeric model), the
fills, then `df = df.dropna(subset=["points_total", "total_wage_bill_gbp_m"])`.
No other column — in particular not `league_position` — takes part in the
drop. -/
def regression_preprocess (rows : List DataRow) : List DataRow :=
  (rows.map regression_fill).filter
    (fun r => r.points_total.isSome && r.total_wage_bill_gbp_m.isSome)

/-- One line of `run_log.csv`: `results.append((s, len(df), outfile))`. -/
structure RunLogEntry where
  season : List Char
  rows : Nat
  file : List Char
  deriving DecidableEq, Repr

/-- One line of `failures.csv`: `failures.append((s, str(e)))`. -/
structure FailureEntry where
  season : List Char
  error : List Char
  deriving DecidableEq, Repr

/-- The outcome of `fetch_fbref_wages_for_season` for one season: a fetched
dataframe, represented by its row count (the only attribute the log keeps),
or a raised exception's message. -/
inductive FetchOutcome where
  | ok (rowcount : Nat)
  | err (msg : List Char)
  deriving DecidableEq, Repr

/-- Whether a fetch outcome is a success. -/
def FetchOutcome.isOk : FetchOutcome → Bool
  | .ok _ => true
  | .err _ => false

/-- The row count of a successful outcome (0 otherwise). -/
def FetchOutcome.rowcountD : FetchOutcome → Nat
  | .ok n => n
  | .err _ => 0

/-- The message of a failing outcome (empty otherwise). -/
def FetchOutcome.msgD : FetchOutcome → List Char
  | .ok _ => []
  | .err m => m

/-- Path `os.path.join(args.outdir, f"wages_" + s.replace(hyphen, underscore) + ".csv")`. -/
def outFile (outdir s : List Char) : List Char :=
  outdir ++ '/' :: (("wages_").data ++ pyReplaceChar '-' '_' s ++ (".csv").data)

/-- The per-season loop of `main` in get_fbref_wages.py, over an oracle
`fetch` giving each season's fetch outcome (the network call itself is not
modelled): a successful season appends `(s, len(df), outfile)` to `results`,
a failing season is caught by the `except` and appends `(s, str(e))` to
`failures`, and the loop continues with the next season either way.  The
returned pair is the content written to `run_log.csv` and `failures.csv`. -/
def scrape_run (fetch : List Char → FetchOutcome) (outdir : List Char) :
    List (List Char) → List RunLogEntry × List FailureEntry
  | [] => ([], [])
  | s :: rest =>
    let acc := scrape_run fetch outdir rest
    match fetch s with
    | .ok n => (⟨s, n, outFile outdir s⟩ :: acc.1, acc.2)
    | .err m => (acc.1, ⟨s, m⟩ :: acc.2)

example : parse_money_to_gbp ("£113.9m").data = some ⟨1139000000, 1⟩ := by decide

example : parse_money_to_gbp ("£113,900,000").data = some ⟨113900000, 0⟩ := by decide

example : DecValue.toRat ⟨1139000000, 1⟩ = ((113900000 : ℕ) : ℚ) := by
  norm_num [DecValue.toRat]

example : parse_money_to_gbp ("N/A").data = none := by decide

example : parse_money_to_gbp ("").data = none := by decide

example : parse_money_to_gbp (" nAn ").data = none := by decide

example : parse_money_to_gbp ("£1.5 M").data = some ⟨15000000, 1⟩ := by decide

example : parse_money_to_gbp ("12.").data = none := by decide

example : standardise_sheet_columns
    [("Club name").data, ("Promoted?").data, ("Transfer spending").data] =
    [("club").data, ("promoted").data, ("gross_transfer_spend_gbp_m").data] := by decide

example : stdClub [("club").data, ("Club name").data] =
    [("club").data, ("Club name").data] := by decide

example : find_wages_table [[("Rk").data], [("Squad").data, ("Annual Wages").data]] =
    some ([("Squad").data, ("Annual Wages").data], ("Annual Wages").data) := by decide

example : normalise_season_value ("13-14").data = ("2013-14").data := by decide

example : normalise_season_value ("2013-14").data = ("20nan-nan").data := by decide

example : normalise_season_value (" 13–14 ").data = ("2013-14").data := by decide

example : make_season_list ("2013-2014").data ("2015-2016").data =
    Except.ok [("2013-2014").data, ("2014-2015").data, ("2015-2016").data] := by rfl

example : make_season_list ("13-14").data ("2015-2016").data =
    Except.error SeasonListError.format := by rfl

example : make_season_list ("2015-2016").data ("2013-2014").data =
    Except.error SeasonListError.range := by rfl

theorem lstripWs_idem (l : List Char) : lstripWs (lstripWs l) = lstripWs l :=
  List.dropWhile_idempotent _ _

theorem rstripWs_idem (l : List Char) : rstripWs (rstripWs l) = rstripWs l :=
  List.rdropWhile_idempotent _ _

theorem lstripWs_rstripWs_of_fix (l : List Char) (h : lstripWs l = l) :
    lstripWs (rstripWs l) = rstripWs l := by
  unfold lstripWs rstripWs at *
  obtain ⟨u, hu⟩ := List.rdropWhile_prefix Char.isWhitespace l
  cases hr : l.rdropWhile Char.isWhitespace with
  | nil => simp [List.dropWhile]
  | cons c t' =>
    rw [hr] at hu
    cases l with
    | nil => simp at hu
    | cons a t =>
      have hca : c = a := by
        simp only [List.cons_append] at hu
        exact (List.cons.inj hu).1
      have ha : ¬Char.isWhitespace a = true := by
        have := List.dropWhile_eq_self_iff.mp h (by simp)
        simpa using this
      subst hca
      rw [List.dropWhile_cons, if_neg ha]

theorem pyStrip_idem (l : List Char) : pyStrip (pyStrip l) = pyStrip l := by
  unfold pyStrip
  rw [lstripWs_rstripWs_of_fix (lstripWs l) (lstripWs_idem l), rstripWs_idem]

theorem dropWhileWs_map (f : Char → Char)
    (hf : ∀ c, (f c).isWhitespace = c.isWhitespace) (l : List Char) :
    (l.map f).dropWhile Char.isWhitespace =
      (l.dropWhile Char.isWhitespace).map f := by
  induction l with
  | nil => rfl
  | cons a t ih =>
    by_cases ha : Char.isWhitespace a
    · simp only [List.map_cons, List.dropWhile_cons, hf, ha, if_pos]
      exact ih
    · simp only [List.map_cons, List.dropWhile_cons, hf a]
      rw [if_neg ha, if_neg ha]
      rfl

theorem pyStrip_map (f : Char → Char)
    (hf : ∀ c, (f c).isWhitespace = c.isWhitespace) (l : List Char) :
    pyStrip (l.map f) = (pyStrip l).map f := by
  unfold pyStrip lstripWs rstripWs List.rdropWhile
  rw [dropWhileWs_map f hf l, ← List.map_reverse, dropWhileWs_map f hf, List.map_reverse]

theorem enDash_replace_pres_ws (c : Char) :
    (if c = enDash then '-' else c).isWhitespace = c.isWhitespace := by
  by_cases hc : c = enDash
  · subst hc
    decide
  · simp [hc]

theorem pyStrip_pyReplaceChar (l : List Char) :
    pyStrip (pyReplaceChar enDash '-' l) = pyReplaceChar enDash '-' (pyStrip l) := by
  unfold pyReplaceChar
  exact pyStrip_map _ enDash_replace_pres_ws l

theorem pyReplaceChar_enDash_idem (l : List Char) :
    pyReplaceChar enDash '-' (pyReplaceChar enDash '-' l) =
      pyReplaceChar enDash '-' l := by
  unfold pyReplaceChar
  rw [List.map_map]
  apply List.map_congr_left
  intro c _
  by_cases hc : c = enDash
  · subst hc
    simp only [Function.comp]
    decide
  · simp [Function.comp, hc]

theorem normPre_idem (s : List Char) : normPre (normPre s) = normPre s := by
  unfold normPre
  rw [pyStrip_pyReplaceChar, pyStrip_idem, pyReplaceChar_enDash_idem]

theorem normPre_fix (r : List Char)
    (h : ∀ x ∈ r, x.isWhitespace = false ∧ x ≠ enDash) : normPre r = r := by
  have hstrip : pyStrip r = r := by
    unfold pyStrip lstripWs rstripWs
    have h1 : r.dropWhile Char.isWhitespace = r := by
      rw [List.dropWhile_eq_self_iff]
      intro hl
      have := h (r.get ⟨0, hl⟩) (List.get_mem r 0 hl)
      simpa using this.1
    rw [h1, List.rdropWhile_eq_self_iff]
    intro hl
    have := h (r.getLast hl) (List.getLast_mem hl)
    simp [this.1]
  unfold normPre
  rw [hstrip]
  unfold pyReplaceChar
  have hcongr : ∀ x ∈ r, (if x = enDash then '-' else x) = x := by
    intro x hx
    simp [(h x hx).2]
  calc List.map (fun c => if c = enDash then '-' else c) r
      = List.map (fun x => x) r := List.map_congr_left hcongr
    _ = r := by simp

theorem matchDDdashDD_shape (t : List Char) (h : matchDDdashDD t = true) :
    ∃ a b c d, t = [a, b, '-', c, d] ∧ a.isDigit = true ∧ b.isDigit = true ∧
      c.isDigit = true ∧ d.isDigit = true := by
  match t with
  | [] => exact nomatch h
  | [a] => exact nomatch h
  | [a, b] => exact nomatch h
  | [a, b, m] => exact nomatch h
  | [a, b, m, c] => exact nomatch h
  | [a, b, m, c, d] =>
    simp only [matchDDdashDD, Bool.and_eq_true, beq_iff_eq] at h
    obtain ⟨⟨⟨⟨ha, hb⟩, hm⟩, hc⟩, hd⟩ := h
    subst hm
    exact ⟨a, b, c, d, rfl, ha, hb, hc, hd⟩
  | a :: b :: m :: c :: d :: e :: rest => exact nomatch h

theorem matchYYYYdashYY_shape (t : List Char) (h : matchYYYYdashYY t = true) :
    t.length = 7 := by
  match t with
  | [] => exact nomatch h
  | [a] => exact nomatch h
  | [a, b] => exact nomatch h
  | [a, b, c] => exact nomatch h
  | [a, b, c, d] => exact nomatch h
  | [a, b, c, d, m] => exact nomatch h
  | [a, b, c, d, m, e] => exact nomatch h
  | [a, b, c, d, m, e, g] => rfl
  | a :: b :: c :: d :: m :: e :: g :: i :: rest => exact nomatch h

theorem digit_not_ws (c : Char) (h : c.isDigit = true) :
    c.isWhitespace = false := by
  have h1 : c ≠ ' ' := fun e => by subst e; simp at h
  have h2 : c ≠ '\t' := fun e => by subst e; simp at h
  have h3 : c ≠ '\r' := fun e => by subst e; simp at h
  have h4 : c ≠ '\n' := fun e => by subst e; simp at h
  simp [Char.isWhitespace, h1, h2, h3, h4]

theorem digit_not_enDash (c : Char) (h : c.isDigit = true) : c ≠ enDash := by
  intro e
  subst e
  exact absurd h (by decide)

theorem normalise_season_value_eq_of_match (s : List Char)
    (hm : matchDDdashDD (normPre s) = true) :
    normalise_season_value s = '2' :: '0' :: normPre s := by
  obtain ⟨a, b, c, d, ht, ha, hb, hc, hd⟩ := matchDDdashDD_shape _ hm
  simp only [normalise_season_value, extractDDdashDD]
  rw [if_pos hm, ht]
  rfl

theorem normalise_season_value_eq_of_nonmatch (s : List Char)
    (hm : matchDDdashDD (normPre s) = false) :
    normalise_season_value s = ("20nan-nan").data := by
  simp only [normalise_season_value, extractDDdashDD]
  rw [if_neg (by simp [hm])]
  rfl

theorem normPre_fix_two_zero (a b c d : Char) (ha : a.isDigit = true)
    (hb : b.isDigit = true) (hc : c.isDigit = true) (hd : d.isDigit = true) :
    normPre ('2' :: '0' :: [a, b, '-', c, d]) = '2' :: '0' :: [a, b, '-', c, d] := by
  apply normPre_fix
  intro x hx
  simp only [List.mem_cons, List.not_mem_nil, or_false] at hx
  rcases hx with h | h | h | h | h | h | h
  · rw [h]
    exact ⟨by decide, by decide⟩
  · rw [h]
    exact ⟨by decide, by decide⟩
  · rw [h]
    exact ⟨digit_not_ws a ha, digit_not_enDash a ha⟩
  · rw [h]
    exact ⟨digit_not_ws b hb, digit_not_enDash b hb⟩
  · rw [h]
    exact ⟨by decide, by decide⟩
  · rw [h]
    exact ⟨digit_not_ws c hc, digit_not_enDash c hc⟩
  · rw [h]
    exact ⟨digit_not_ws d hd, digit_not_enDash d hd⟩

/-- C2: the claim's pass-through clauses fail on the code, and the code
contradicts its own comments ("If season is like 2013-14, keep as-is"):
pandas `str.extract` returns NaN — not `None` — on non-matching input, and
`nan is not None` is true, so the first branch of `normalise_season_value`
always fires and every label not matching the two-2-digit pattern, including
the already-canonical "2013-14", is turned into "20nan-nan" instead of being
passed through unchanged.  The "20"-prefix clause itself does hold, as the
"13-14" conjunct shows. -/
theorem normalise_season_value_code_bug :
    normalise_season_value ("2013-14").data = ("20nan-nan").data ∧
    normalise_season_value ("2013-14").data ≠ ("2013-14").data ∧
    normalise_season_value ("N/A").data = ("20nan-nan").data ∧
    normalise_season_value ("13-14").data = ("2013-14").data :=
  ⟨by decide, by decide, by decide, by decide⟩

/-- C10 counterexample: `normalise_season_value` is not idempotent — on
"13-14" the first application gives "2013-14", whose normalised form no
longer matches the two-2-digit pattern, so the second application gives
"20nan-nan". -/
theorem normalise_season_value_idem_counterexample :
    normalise_season_value (normalise_season_value ("13-14").data) ≠
      normalise_season_value ("13-14").data := by decide

/-- C10 (amended): `normalise_season_value` composed with itself is the
constant "20nan-nan"; consequently it is idempotent exactly on the inputs
whose stripped, en-dash-normalised form fails the two-2-digit pattern (where
one application already gives the fixpoint "20nan-nan"), and idempotence
fails on every input the pattern matches. -/
theorem normalise_season_value_idem_amended (s : List Char) :
    normalise_season_value (normalise_season_value s) = ("20nan-nan").data ∧
    (matchDDdashDD (normPre s) = false →
      normalise_season_value (normalise_season_value s) =
        normalise_season_value s) ∧
    (matchDDdashDD (normPre s) = true →
      normalise_season_value (normalise_season_value s) ≠
        normalise_season_value s) := by
  have hdouble : normalise_season_value (normalise_season_value s) =
      ("20nan-nan").data := by
    by_cases hm : matchDDdashDD (normPre s) = true
    · obtain ⟨a, b, c, d, ht, ha, hb, hc, hd⟩ := matchDDdashDD_shape _ hm
      rw [normalise_season_value_eq_of_match s hm, ht]
      apply normalise_season_value_eq_of_nonmatch
      rw [normPre_fix_two_zero a b c d ha hb hc hd]
      rfl
    · have hm' : matchDDdashDD (normPre s) = false := by
        simpa using hm
      rw [normalise_season_value_eq_of_nonmatch s hm']
      decide
  refine ⟨hdouble, ?_, ?_⟩
  · intro hm
    rw [hdouble, normalise_season_value_eq_of_nonmatch s hm]
  · intro hm
    obtain ⟨a, b, c, d, ht, -, -, -, -⟩ := matchDDdashDD_shape _ hm
    rw [hdouble, normalise_season_value_eq_of_match s hm, ht]
    intro heq
    have h9 : (("20nan-nan").data).length = 9 := rfl
    have h7 : ('2' :: '0' :: [a, b, '-', c, d] : List Char).length = 7 := rfl
    have hlen : (9 : Nat) = (7 : Nat) := by
      rw [← h9, heq, h7]
    exact absurd hlen (by decide)

/-- Witness for C10 (amended): "2013-14" does not match the two-2-digit
pattern after preprocessing, so a second application changes nothing, while
"13-14" matches and idempotence fails there. -/
theorem normalise_season_value_idem_amended_witness :
    normalise_season_value (normalise_season_value ("2013-14").data) =
      normalise_season_value ("2013-14").data ∧
    normalise_season_value (normalise_season_value ("13-14").data) ≠
      normalise_season_value ("13-14").data :=
  ⟨(normalise_season_value_idem_amended ("2013-14").data).2.1 (by decide),
    (normalise_season_value_idem_amended ("13-14").data).2.2 (by decide)⟩

theorem timesMillion_toRat (q : DecValue) :
    q.timesMillion.toRat = q.toRat * ((1000000 : ℕ) : ℚ) := by
  unfold DecValue.timesMillion DecValue.toRat
  push_cast
  ring

/-- C3: `parse_money_to_gbp` first strips the string and, unless the
missing-cell guard fires, strips currency symbols and commas
(`money_clean`); a match of the `m`-suffix pattern yields that number times
1,000,000, a match of the plain decimal pattern yields the literal GBP
value, and any other cleaned string yields a missing value rather than an
error; an input caught by the guard also yields a missing value.  In
particular "£113.9m" yields 113,900,000, "£113,900,000" yields 113,900,000,
and "N/A" and "" yield missing values. -/
theorem parse_money_to_gbp_spec (value : List Char) :
    (money_missing_guard (pyStrip value) = true →
      parse_money_to_gbp_val value = none) ∧
    (money_missing_guard (pyStrip value) = false →
      ∀ q, matchMSuffix (money_clean (pyStrip value)) = some q →
        parse_money_to_gbp_val value = some (q.toRat * ((1000000 : ℕ) : ℚ))) ∧
    (money_missing_guard (pyStrip value) = false →
      matchMSuffix (money_clean (pyStrip value)) = none →
      ∀ q, matchPlainNumber (money_clean (pyStrip value)) = some q →
        parse_money_to_gbp_val value = some q.toRat) ∧
    (money_missing_guard (pyStrip value) = false →
      matchMSuffix (money_clean (pyStrip value)) = none →
      matchPlainNumber (money_clean (pyStrip value)) = none →
      parse_money_to_gbp_val value = none) ∧
    parse_money_to_gbp_val ("£113.9m").data = some (((113900000 : ℕ)) : ℚ) ∧
    parse_money_to_gbp_val ("£113,900,000").data = some (((113900000 : ℕ)) : ℚ) ∧
    parse_money_to_gbp_val ("N/A").data = none ∧
    parse_money_to_gbp_val ("").data = none := by
  refine ⟨?_, ?_, ?_, ?_, ?_, ?_, ?_, ?_⟩
  · intro hg
    simp [parse_money_to_gbp_val, parse_money_to_gbp, hg]
  · intro hg q hq
    simp [parse_money_to_gbp_val, parse_money_to_gbp, hg, hq, timesMillion_toRat]
  · intro hg hm q hq
    simp [parse_money_to_gbp_val, parse_money_to_gbp, hg, hm, hq]
  · intro hg hm hp
    simp [parse_money_to_gbp_val, parse_money_to_gbp, hg, hm, hp]
  · have h : parse_money_to_gbp ("£113.9m").data = some ⟨1139000000, 1⟩ := by decide
    simp only [parse_money_to_gbp_val, h, Option.map_some, Option.some.injEq]
    unfold DecValue.toRat
    norm_num
  · have h : parse_money_to_gbp ("£113,900,000").data = some ⟨113900000, 0⟩ := by
      decide
    simp only [parse_money_to_gbp_val, h, Option.map_some, Option.some.injEq]
    unfold DecValue.toRat
    norm_num
  · have h : parse_money_to_gbp ("N/A").data = none := by decide
    simp [parse_money_to_gbp_val, h]
  · have h : parse_money_to_gbp ("").data = none := by decide
    simp [parse_money_to_gbp_val, h]

/-- Witness for C3: the `m`-suffix clause applied to "£113.9m", whose
cleaned form matches the suffix pattern with value 113.9, and the plain
clause applied to "£113,900,000". -/
theorem parse_money_to_gbp_spec_witness :
    parse_money_to_gbp_val ("£113.9m").data =
      some (DecValue.toRat ⟨1139, 1⟩ * ((1000000 : ℕ) : ℚ)) ∧
    parse_money_to_gbp_val ("£113,900,000").data =
      some (DecValue.toRat ⟨113900000, 0⟩) :=
  ⟨(parse_money_to_gbp_spec ("£113.9m").data).2.1 (by decide) ⟨1139, 1⟩ (by decide),
    (parse_money_to_gbp_spec ("£113,900,000").data).2.2.1 (by decide) (by decide)
      ⟨113900000, 0⟩ (by decide)⟩

/-- C1: for every pair of season bounds matching the `YYYY-YYYY` pattern
whose end year does not precede the start year, `make_season_list` returns
every consecutive season string from the start season to the end season,
inclusive of both endpoints: the list has one entry per year from start year
to end year, its `i`-th entry is the season starting in year `start + i`,
its first entry is the start season and its last entry is the end season. -/
theorem make_season_list_consecutive
    (ss es : List Char) (sy sn ey en : Nat)
    (hs : matchYYYYdashYYYY ss = some (sy, sn))
    (he : matchYYYYdashYYYY es = some (ey, en))
    (hle : sy ≤ ey) :
    ∃ l, make_season_list ss es = Except.ok l ∧
      l.length = ey + 1 - sy ∧
      (∀ i (hi : i < l.length), l.get ⟨i, hi⟩ = seasonStr (sy + i)) ∧
      l.head? = some (seasonStr sy) ∧
      l.getLast? = some (seasonStr ey) := by
  have hlen : (List.range' sy (ey + 1 - sy)).length = ey + 1 - sy := by
    simp
  refine ⟨(List.range' sy (ey + 1 - sy)).map seasonStr, ?_, ?_, ?_, ?_, ?_⟩
  · unfold make_season_list
    rw [hs, he]
    simp [Nat.not_lt.mpr hle]
  · simp
  · intro i hi
    simp only [List.length_map, hlen] at hi
    simp [List.get_eq_getElem, List.getElem_map, List.getElem_range'_1]
  · have hpos : 0 < ((List.range' sy (ey + 1 - sy)).map seasonStr).length := by
      simp only [List.length_map, hlen]
      omega
    rw [List.head?_eq_getElem?, List.getElem?_eq_getElem hpos]
    simp [List.getElem_map, List.getElem_range'_1]
  · have hpos : ((List.range' sy (ey + 1 - sy)).map seasonStr).length - 1 <
        ((List.range' sy (ey + 1 - sy)).map seasonStr).length := by
      simp only [List.length_map, hlen]
      omega
    rw [List.getLast?_eq_getElem?, List.getElem?_eq_getElem hpos]
    simp only [List.getElem_map, List.getElem_range'_1, List.length_map, hlen,
      Option.some.injEq]
    have : sy + (ey + 1 - sy - 1) = ey := by omega
    rw [this]

/-- Witness for C1 at the spec's own example: the bounds 2013-2014 and
2015-2016 match the pattern, the theorem applies, and the returned list is
exactly ["2013-2014", "2014-2015", "2015-2016"]. -/
theorem make_season_list_consecutive_witness :
    (∃ l, make_season_list ("2013-2014").data ("2015-2016").data = Except.ok l ∧
      l.length = 2015 + 1 - 2013 ∧
      (∀ i (hi : i < l.length), l.get ⟨i, hi⟩ = seasonStr (2013 + i)) ∧
      l.head? = some (seasonStr 2013) ∧
      l.getLast? = some (seasonStr 2015)) ∧
    make_season_list ("2013-2014").data ("2015-2016").data =
      Except.ok [("2013-2014").data, ("2014-2015").data, ("2015-2016").data] :=
  ⟨make_season_list_consecutive ("2013-2014").data ("2015-2016").data
      2013 2014 2015 2016 (by decide) (by decide) (by decide),
    by rfl⟩

theorem filter_eq_cons_of_first {α : Type} (p : α → Bool) (l : List α) :
    ∀ (i : Nat) (hi : i < l.length), p (l.get ⟨i, hi⟩) = true →
      (∀ j (hj : j < i), p (l.get ⟨j, Nat.lt_trans hj hi⟩) = false) →
      ∃ rest, l.filter p = l.get ⟨i, hi⟩ :: rest := by
  induction l with
  | nil =>
    intro i hi
    simp at hi
  | cons a t ih =>
    intro i hi hp hfirst
    cases i with
    | zero =>
      simp only [List.get] at hp
      refine ⟨t.filter p, ?_⟩
      simp [List.filter_cons, hp]
    | succ k =>
      have ha : p a = false := by
        have := hfirst 0 (Nat.succ_pos k)
        simpa using this
      have hk : k < t.length := by
        simpa using hi
      have hp' : p (t.get ⟨k, hk⟩) = true := by
        simpa using hp
      have hfirst' : ∀ j (hj : j < k), p (t.get ⟨j, Nat.lt_trans hj hk⟩) = false := by
        intro j hj
        have := hfirst (j + 1) (Nat.succ_lt_succ hj)
        simpa using this
      obtain ⟨rest, hrest⟩ := ih k hk hp' hfirst'
      refine ⟨rest, ?_⟩
      rw [List.filter_cons, if_neg (by simp [ha])]
      rw [hrest]
      rfl

theorem renameCol_eq_set (cols : List (List Char)) (new : List Char)
    (i : Nat) (hi : i < cols.length) (hnd : cols.Nodup) :
    renameCol (cols.get ⟨i, hi⟩) new cols = cols.set i new := by
  apply List.ext_getElem
  · simp [renameCol]
  · intro n h1 h2
    have hn : n < cols.length := by
      simpa [renameCol] using h1
    simp only [renameCol, List.getElem_map]
    by_cases heq : n = i
    · subst heq
      rw [List.getElem_set_self]
      simp [List.get_eq_getElem]
    · rw [List.getElem_set_of_ne (fun e => heq e.symm)]
      have hne : ¬cols[n] = cols[i] := by
        rw [hnd.getElem_inj_iff]
        exact heq
      simp [List.get_eq_getElem, hne]

theorem stdClub_spec (cols : List (List Char)) (hnd : cols.Nodup) :
    (("club").data ∈ cols → stdClub cols = cols) ∧
    ((∀ c ∈ cols, isClubLike c = false) → stdClub cols = cols) ∧
    (∀ i (hi : i < cols.length), ¬("club").data ∈ cols →
      isClubLike (cols.get ⟨i, hi⟩) = true →
      (∀ j (hj : j < i), isClubLike (cols.get ⟨j, Nat.lt_trans hj hi⟩) = false) →
      stdClub cols = cols.set i (("club").data)) := by
  refine ⟨?_, ?_, ?_⟩
  · intro h
    simp [stdClub, h]
  · intro h
    unfold stdClub
    rw [List.filter_eq_nil_iff.mpr (fun a ha => by simp [h a ha])]
    split <;> rfl
  · intro i hi hnin hp hfirst
    obtain ⟨rest, hrest⟩ := filter_eq_cons_of_first isClubLike cols i hi hp hfirst
    unfold stdClub
    rw [if_neg hnin, hrest]
    exact renameCol_eq_set cols _ i hi hnd

theorem stdPromoted_spec (cols : List (List Char)) (hnd : cols.Nodup) :
    ((∀ c ∈ cols, isPromotLike c = false) → stdPromoted cols = cols) ∧
    (∀ i (hi : i < cols.length),
      isPromotLike (cols.get ⟨i, hi⟩) = true →
      (∀ j (hj : j < i), isPromotLike (cols.get ⟨j, Nat.lt_trans hj hi⟩) = false) →
      (cols.get ⟨i, hi⟩ = ("promoted").data → stdPromoted cols = cols) ∧
      (cols.get ⟨i, hi⟩ ≠ ("promoted").data →
        stdPromoted cols = cols.set i (("promoted").data))) := by
  constructor
  · intro h
    unfold stdPromoted
    rw [List.filter_eq_nil_iff.mpr (fun a ha => by simp [h a ha])]
  · intro i hi hp hfirst
    obtain ⟨rest, hrest⟩ := filter_eq_cons_of_first isPromotLike cols i hi hp hfirst
    constructor
    · intro hcanon
      unfold stdPromoted
      rw [hrest]
      show (if cols.get ⟨i, hi⟩ = ("promoted").data then cols
        else renameCol (cols.get ⟨i, hi⟩) ("promoted").data cols) = cols
      rw [if_pos hcanon]
    · intro hnc
      unfold stdPromoted
      rw [hrest]
      show (if cols.get ⟨i, hi⟩ = ("promoted").data then cols
        else renameCol (cols.get ⟨i, hi⟩) ("promoted").data cols) =
          cols.set i (("promoted").data)
      rw [if_neg hnc]
      exact renameCol_eq_set cols _ i hi hnd

theorem stdSpend_spec (cols : List (List Char)) (hnd : cols.Nodup) :
    ((∀ c ∈ cols, isSpendLike c = false) → stdSpend cols = cols) ∧
    (∀ i (hi : i < cols.length),
      isSpendLike (cols.get ⟨i, hi⟩) = true →
      (∀ j (hj : j < i), isSpendLike (cols.get ⟨j, Nat.lt_trans hj hi⟩) = false) →
      (cols.get ⟨i, hi⟩ = ("gross_transfer_spend_gbp_m").data → stdSpend cols = cols) ∧
      (cols.get ⟨i, hi⟩ ≠ ("gross_transfer_spend_gbp_m").data →
        stdSpend cols = cols.set i (("gross_transfer_spend_gbp_m").data))) := by
  constructor
  · intro h
    unfold stdSpend
    rw [List.filter_eq_nil_iff.mpr (fun a ha => by simp [h a ha])]
  · intro i hi hp hfirst
    obtain ⟨rest, hrest⟩ := filter_eq_cons_of_first isSpendLike cols i hi hp hfirst
    constructor
    · intro hcanon
      unfold stdSpend
      rw [hrest]
      show (if cols.get ⟨i, hi⟩ = ("gross_transfer_spend_gbp_m").data then cols
        else renameCol (cols.get ⟨i, hi⟩) ("gross_transfer_spend_gbp_m").data cols) = cols
      rw [if_pos hcanon]
    · intro hnc
      unfold stdSpend
      rw [hrest]
      show (if cols.get ⟨i, hi⟩ = ("gross_transfer_spend_gbp_m").data then cols
        else renameCol (cols.get ⟨i, hi⟩) ("gross_transfer_spend_gbp_m").data cols) =
          cols.set i (("gross_transfer_spend_gbp_m").data)
      rw [if_neg hnc]
      exact renameCol_eq_set cols _ i hi hnd

/-- C5: for each sheet's column set (distinctly-named columns), considered
independently per target: the first club-containing column (in column
order) is renamed to "club" only when no column is already named exactly
"club"; the first "promot"-containing column is renamed to "promoted"
unless it already has that name; the first transfer-spend column is renamed
to "gross_transfer_spend_gbp_m" unless it already has that name.  Renaming
replaces exactly the chosen position (`List.set`), so later matching
candidates keep their names, and when no candidate matches the columns are
left unchanged with no error raised. -/
theorem sheet_column_renaming_spec :
    (∀ cols : List (List Char), cols.Nodup →
      (("club").data ∈ cols → stdClub cols = cols) ∧
      ((∀ c ∈ cols, isClubLike c = false) → stdClub cols = cols) ∧
      (∀ i (hi : i < cols.length), ¬("club").data ∈ cols →
        isClubLike (cols.get ⟨i, hi⟩) = true →
        (∀ j (hj : j < i), isClubLike (cols.get ⟨j, Nat.lt_trans hj hi⟩) = false) →
        stdClub cols = cols.set i (("club").data))) ∧
    (∀ cols : List (List Char), cols.Nodup →
      ((∀ c ∈ cols, isPromotLike c = false) → stdPromoted cols = cols) ∧
      (∀ i (hi : i < cols.length),
        isPromotLike (cols.get ⟨i, hi⟩) = true →
        (∀ j (hj : j < i), isPromotLike (cols.get ⟨j, Nat.lt_trans hj hi⟩) = false) →
        (cols.get ⟨i, hi⟩ = ("promoted").data → stdPromoted cols = cols) ∧
        (cols.get ⟨i, hi⟩ ≠ ("promoted").data →
          stdPromoted cols = cols.set i (("promoted").data)))) ∧
    (∀ cols : List (List Char), cols.Nodup →
      ((∀ c ∈ cols, isSpendLike c = false) → stdSpend cols = cols) ∧
      (∀ i (hi : i < cols.length),
        isSpendLike (cols.get ⟨i, hi⟩) = true →
        (∀ j (hj : j < i), isSpendLike (cols.get ⟨j, Nat.lt_trans hj hi⟩) = false) →
        (cols.get ⟨i, hi⟩ = ("gross_transfer_spend_gbp_m").data → stdSpend cols = cols) ∧
        (cols.get ⟨i, hi⟩ ≠ ("gross_transfer_spend_gbp_m").data →
          stdSpend cols = cols.set i (("gross_transfer_spend_gbp_m").data)))) :=
  ⟨stdClub_spec, stdPromoted_spec, stdSpend_spec⟩

/-- Witness for C5 on a concrete sheet: "Club name" is renamed to "club",
"Promoted?" to "promoted", "Transfer spending" to
"gross_transfer_spend_gbp_m", each at its own position. -/
theorem sheet_column_renaming_spec_witness :
    stdClub [("Club name").data, ("Promoted?").data, ("Transfer spending").data] =
      [("Club name").data, ("Promoted?").data, ("Transfer spending").data].set 0
        (("club").data) ∧
    stdPromoted [("Club name").data, ("Promoted?").data, ("Transfer spending").data] =
      [("Club name").data, ("Promoted?").data, ("Transfer spending").data].set 1
        (("promoted").data) ∧
    stdSpend [("Club name").data, ("Promoted?").data, ("Transfer spending").data] =
      [("Club name").data, ("Promoted?").data, ("Transfer spending").data].set 2
        (("gross_transfer_spend_gbp_m").data) :=
  ⟨(sheet_column_renaming_spec.1 _ (by decide)).2.2 0 (by decide) (by decide) (by decide)
      (fun j hj => absurd hj (Nat.not_lt_zero j)),
    ((sheet_column_renaming_spec.2.1 _ (by decide)).2 1 (by decide) (by decide)
      (by
        intro j hj
        have hj0 : j = 0 := by omega
        subst hj0
        exact show isPromotLike (("Club name").data) = false by decide)).2 (by decide),
    ((sheet_column_renaming_spec.2.2 _ (by decide)).2 2 (by decide) (by decide)
      (by
        intro j hj
        match j, hj with
        | 0, _ => exact show isSpendLike (("Club name").data) = false by decide
        | 1, _ => exact show isSpendLike (("Promoted?").data) = false by decide)).2
      (by decide)⟩

/-- A table qualifies in `find_wages_table` when it has a club-column
candidate and an annual-wages candidate. -/
def qualifiesWages (t : List (List Char)) : Bool :=
  t.any isClubCol && t.any isWageCol

/-- C6: `find_wages_table` fails (raises) exactly when no table qualifies;
and whenever table `i` is the first qualifying table in list order and
column `k` is its first annual-wages candidate in column order, the
function returns exactly that table paired with that column. -/
theorem find_wages_table_spec (ts : List (List (List Char))) :
    (find_wages_table ts = none ↔ ∀ t ∈ ts, qualifiesWages t = false) ∧
    (∀ i (hi : i < ts.length),
      qualifiesWages (ts.get ⟨i, hi⟩) = true →
      (∀ j (hj : j < i), qualifiesWages (ts.get ⟨j, Nat.lt_trans hj hi⟩) = false) →
      ∀ k (hk : k < (ts.get ⟨i, hi⟩).length),
        isWageCol ((ts.get ⟨i, hi⟩).get ⟨k, hk⟩) = true →
        (∀ j (hj : j < k), isWageCol ((ts.get ⟨i, hi⟩).get ⟨j, Nat.lt_trans hj hk⟩) = false) →
        find_wages_table ts = some (ts.get ⟨i, hi⟩, (ts.get ⟨i, hi⟩).get ⟨k, hk⟩)) := by
  induction ts with
  | nil =>
    constructor
    · simp [find_wages_table]
    · intro i hi
      simp at hi
  | cons t rest ih =>
    constructor
    · cases hc : t.any isClubCol with
      | false =>
        have hq : qualifiesWages t = false := by
          simp [qualifiesWages, hc]
        have hstep : find_wages_table (t :: rest) = find_wages_table rest := by
          simp [find_wages_table, hc]
        rw [hstep]
        simp [ih.1, hq]
      | true =>
        cases hf : t.filter isWageCol with
        | nil =>
          have hq : qualifiesWages t = false := by
            have : t.any isWageCol = false := by
              rw [← Bool.not_eq_true, List.any_eq_true]
              rintro ⟨x, hx, hpx⟩
              exact absurd hpx (by simpa using List.filter_eq_nil_iff.mp hf x hx)
            simp [qualifiesWages, this]
          have hstep : find_wages_table (t :: rest) = find_wages_table rest := by
            simp [find_wages_table, hc, hf]
          rw [hstep]
          simp [ih.1, hq]
        | cons c cs =>
          have hq : qualifiesWages t = true := by
            have hcmem : c ∈ t.filter isWageCol := by
              rw [hf]
              exact List.mem_cons_self c cs
            have := List.mem_filter.mp hcmem
            simp [qualifiesWages, hc, List.any_eq_true]
            exact ⟨c, this.1, this.2⟩
          have hstep : find_wages_table (t :: rest) = some (t, c) := by
            simp [find_wages_table, hc, hf]
          rw [hstep]
          constructor
          · intro h
            simp at h
          · intro h
            have := h t (List.mem_cons_self t rest)
            rw [hq] at this
            simp at this
    · intro i hi hq hfirst k hk hw hwfirst
      cases i with
      | zero =>
        simp only [List.get] at hq hk hw hwfirst ⊢
        have hc : t.any isClubCol = true := by
          have := hq
          simp only [qualifiesWages, Bool.and_eq_true] at this
          exact this.1
        obtain ⟨restf, hrestf⟩ :=
          filter_eq_cons_of_first isWageCol t k hk hw hwfirst
        simp [find_wages_table, hc, hrestf]
      | succ n =>
        have hq0 : qualifiesWages t = false := by
          have := hfirst 0 (Nat.succ_pos n)
          simpa using this
        have hn : n < rest.length := by
          simpa using hi
        have hstep : find_wages_table (t :: rest) = find_wages_table rest := by
          cases hc : t.any isClubCol with
          | false => simp [find_wages_table, hc]
          | true =>
            cases hf : t.filter isWageCol with
            | nil => simp [find_wages_table, hc, hf]
            | cons c cs =>
              exfalso
              have hcmem : c ∈ t.filter isWageCol := by
                rw [hf]
                exact List.mem_cons_self c cs
              have hmf := List.mem_filter.mp hcmem
              have : qualifiesWages t = true := by
                simp [qualifiesWages, hc, List.any_eq_true]
                exact ⟨c, hmf.1, hmf.2⟩
              rw [hq0] at this
              simp at this
        rw [hstep]
        have hq' : qualifiesWages (rest.get ⟨n, hn⟩) = true := by
          simpa using hq
        have hfirst' : ∀ j (hj : j < n),
            qualifiesWages (rest.get ⟨j, Nat.lt_trans hj hn⟩) = false := by
          intro j hj
          have := hfirst (j + 1) (Nat.succ_lt_succ hj)
          simpa using this
        have hk' : k < (rest.get ⟨n, hn⟩).length := by
          simpa using hk
        have hw' : isWageCol ((rest.get ⟨n, hn⟩).get ⟨k, hk'⟩) = true := by
          simpa using hw
        have hwfirst' : ∀ j (hj : j < k),
            isWageCol ((rest.get ⟨n, hn⟩).get ⟨j, Nat.lt_trans hj hk'⟩) = false := by
          intro j hj
          have := hwfirst j hj
          simpa using this
        have := ih.2 n hn hq' hfirst' k hk' hw' hwfirst'
        rw [this]
        congr 1

/-- Witness for C6: on a list with one non-qualifying table followed by a
qualifying one, the second table is selected with its first annual-wages
column. -/
theorem find_wages_table_spec_witness :
    find_wages_table
        [[("Rk").data], [("Squad").data, ("Weekly Wages").data, ("Annual Wages").data]] =
      some ([("Squad").data, ("Weekly Wages").data, ("Annual Wages").data],
        ("Annual Wages").data) :=
  (find_wages_table_spec
      [[("Rk").data], [("Squad").data, ("Weekly Wages").data, ("Annual Wages").data]]).2
    1 (by decide) (by decide)
    (by
      intro j hj
      have hj0 : j = 0 := by omega
      subst hj0
      exact show qualifiesWages [("Rk").data] = false by decide)
    2 (by decide) (by decide)
    (by
      intro j hj
      match j, hj with
      | 0, _ => exact show isWageCol (("Squad").data) = false by decide
      | 1, _ => exact show isWageCol (("Weekly Wages").data) = false by decide)

/-- C4: `make_season_list` raises the format `ValueError` iff either bound
fails the `YYYY-YYYY` pattern; for matching bounds it raises the range
`ValueError` iff the end year precedes the start year; and it returns
normally exactly in the remaining cases. -/
theorem make_season_list_error_trichotomy (ss es : List Char) :
    (make_season_list ss es = Except.error SeasonListError.format ↔
      matchYYYYdashYYYY ss = none ∨ matchYYYYdashYYYY es = none) ∧
    (make_season_list ss es = Except.error SeasonListError.range ↔
      ∃ p q, matchYYYYdashYYYY ss = some p ∧ matchYYYYdashYYYY es = some q ∧
        q.1 < p.1) ∧
    ((∃ l, make_season_list ss es = Except.ok l) ↔
      ∃ p q, matchYYYYdashYYYY ss = some p ∧ matchYYYYdashYYYY es = some q ∧
        p.1 ≤ q.1) := by
  rcases hs : matchYYYYdashYYYY ss with _ | ⟨sy, sn⟩ <;>
    rcases he : matchYYYYdashYYYY es with _ | ⟨ey, en⟩
  · unfold make_season_list
    rw [hs, he]
    simp
  · unfold make_season_list
    rw [hs, he]
    simp
  · unfold make_season_list
    rw [hs, he]
    simp
  · unfold make_season_list
    rw [hs, he]
    by_cases hlt : ey < sy
    · simp only [if_pos hlt]
      refine ⟨by simp, ?_, ?_⟩
      · simp only [true_iff]
        exact ⟨(sy, sn), (ey, en), rfl, rfl, hlt⟩
      · constructor
        · rintro ⟨l, hl⟩
          simp at hl
        · rintro ⟨p, q, hp, hq, hpq⟩
          injection hp with hp
          injection hq with hq
          subst hp
          subst hq
          omega
    · simp only [if_neg hlt]
      refine ⟨by simp, ?_, ?_⟩
      · constructor
        · intro h
          simp at h
        · rintro ⟨p, q, hp, hq, hpq⟩
          injection hp with hp
          injection hq with hq
          subst hp
          subst hq
          omega
      · simp only [Except.ok.injEq, exists_eq', true_iff]
        exact ⟨(sy, sn), (ey, en), rfl, rfl, by omega⟩

/-- Witness for C4: malformed "13-14" as a bound yields the format error,
and 2015-2016 before 2013-2014 yields the range error. -/
theorem make_season_list_error_trichotomy_witness :
    make_season_list ("13-14").data ("2015-2016").data =
        Except.error SeasonListError.format ∧
    make_season_list ("2015-2016").data ("2013-2014").data =
        Except.error SeasonListError.range :=
  ⟨(make_season_list_error_trichotomy ("13-14").data ("2015-2016").data).1.mpr
      (Or.inl (by decide)),
    (make_season_list_error_trichotomy ("2015-2016").data ("2013-2014").data).2.1.mpr
      ⟨(2015, 2016), (2013, 2014), by decide, by decide, by decide⟩⟩

/-- C7 counterexample: a row whose `league_position` — the dependent
variable of model M4 — is missing, while `points_total` and the wage bill
are present, survives the preprocessing of 03_regression.py.  So the claim
that every row missing the dependent variable is dropped before fitting,
for all four models including M4, fails on the code: the drop subset is
`["points_total", "total_wage_bill_gbp_m"]` only. -/
theorem regression_preprocess_counterexample :
    (regression_preprocess
        [⟨some ((50 : ℕ) : ℚ), none, some ((100 : ℕ) : ℚ), none, none⟩]).all
      (fun r => r.league_position.isSome) = false := by decide

/-- C7 (amended): before any model is fit, the regression script drops
exactly the rows missing `points_total` or the wage bill; a row missing
only `league_position` (M4's dependent variable) is not dropped by the
script's preprocessing; and every missing transfer-spend value in the
surviving rows is imputed to zero. -/
theorem regression_preprocess_spec (rows : List DataRow) :
    (∀ r ∈ regression_preprocess rows, r.points_total.isSome = true ∧
      r.total_wage_bill_gbp_m.isSome = true ∧
      r.gross_transfer_spend_gbp_m.isSome = true) ∧
    (∀ r ∈ rows, r.points_total.isSome = true →
      r.total_wage_bill_gbp_m.isSome = true →
      regression_fill r ∈ regression_preprocess rows) ∧
    (∀ r' ∈ regression_preprocess rows, ∃ r ∈ rows, r' = regression_fill r) ∧
    (∀ r : DataRow, (regression_fill r).league_position = r.league_position ∧
      (regression_fill r).gross_transfer_spend_gbp_m =
        some (r.gross_transfer_spend_gbp_m.getD 0) ∧
      (regression_fill r).points_total = r.points_total ∧
      (regression_fill r).total_wage_bill_gbp_m = r.total_wage_bill_gbp_m) := by
  refine ⟨?_, ?_, ?_, fun r => ⟨rfl, rfl, rfl, rfl⟩⟩
  · intro r hr
    have hm := List.mem_filter.mp hr
    have hcond := hm.2
    simp only [Bool.and_eq_true] at hcond
    obtain ⟨r0, _, hfill⟩ := List.mem_map.mp hm.1
    refine ⟨hcond.1, hcond.2, ?_⟩
    rw [← hfill]
    rfl
  · intro r hrm hp hw
    apply List.mem_filter.mpr
    constructor
    · exact List.mem_map.mpr ⟨r, hrm, rfl⟩
    · have hlp : (regression_fill r).points_total = r.points_total := rfl
      have hlw : (regression_fill r).total_wage_bill_gbp_m =
          r.total_wage_bill_gbp_m := rfl
      rw [hlp, hlw, hp, hw]
      rfl
  · intro r' hr'
    have hm := List.mem_filter.mp hr'
    obtain ⟨r0, hr0, hfill⟩ := List.mem_map.mp hm.1
    exact ⟨r0, hr0, hfill.symm⟩

/-- Witness for C7 (amended): the counterexample row — points and wages
present, league position missing — is kept by the preprocessing, with its
transfer spend imputed to zero. -/
theorem regression_preprocess_spec_witness :
    regression_fill
        (⟨some ((50 : ℕ) : ℚ), none, some ((100 : ℕ) : ℚ), none, none⟩ : DataRow) ∈
      regression_preprocess
        [⟨some ((50 : ℕ) : ℚ), none, some ((100 : ℕ) : ℚ), none, none⟩] :=
  (regression_preprocess_spec
      [⟨some ((50 : ℕ) : ℚ), none, some ((100 : ℕ) : ℚ), none, none⟩]).2.1
    _ (List.mem_cons_self _ _) (by decide) (by decide)

/-- C8: in both the cleaning script (02_analysis.py) and the regression
script (03_regression.py), after the type coercion every missing promoted
entry becomes 0; the two transformations agree, preserve the column length,
and land in ℤ — the `astype(int)` — so the promoted column holds integer
values. -/
theorem promoted_clean_spec (col : List (Option ℚ)) :
    analysis_promoted_clean col = regression_promoted_clean col ∧
    (analysis_promoted_clean col).length = col.length ∧
    (regression_promoted_clean col).length = col.length ∧
    (∀ i : ℕ, col[i]? = some (none : Option ℚ) →
      (analysis_promoted_clean col)[i]? = some (0 : ℤ)) ∧
    (∀ i : ℕ, col[i]? = some (none : Option ℚ) →
      (regression_promoted_clean col)[i]? = some (0 : ℤ)) := by
  have hmain : ∀ i : ℕ, col[i]? = some (none : Option ℚ) →
      (analysis_promoted_clean col)[i]? = some (0 : ℤ) := by
    intro i hi
    unfold analysis_promoted_clean
    rw [List.getElem?_map, hi]
    decide
  refine ⟨rfl, by simp [analysis_promoted_clean], by simp [regression_promoted_clean],
    hmain, hmain⟩

/-- Witness for C8: a column with a missing first entry maps it to the
integer 0 under both scripts' transformations. -/
theorem promoted_clean_spec_witness :
    (analysis_promoted_clean [none, some ((3 : ℕ) : ℚ)])[0]? = some (0 : ℤ) ∧
    (regression_promoted_clean [none])[0]? = some (0 : ℤ) :=
  ⟨(promoted_clean_spec [none, some ((3 : ℕ) : ℚ)]).2.2.2.1 0 (by decide),
    (promoted_clean_spec [none]).2.2.2.2 0 (by decide)⟩

/-- C9: for every fetch oracle and season list, the scraper's main loop
gives each season exactly one outcome: the run log is exactly the list of
successful seasons in order, each with its fetched row count and output
file path, the failure list is exactly the failed seasons in order with
their error messages, and together they cover the seasons (the lengths sum
to the number of seasons).  A failure for one season therefore never
prevents processing of subsequent seasons, and both reports are produced. -/
theorem scrape_run_spec (fetch : List Char → FetchOutcome) (outdir : List Char)
    (seasons : List (List Char)) :
    (scrape_run fetch outdir seasons).1 =
      (seasons.filter (fun s => (fetch s).isOk)).map
        (fun s => RunLogEntry.mk s (fetch s).rowcountD (outFile outdir s)) ∧
    (scrape_run fetch outdir seasons).2 =
      (seasons.filter (fun s => !(fetch s).isOk)).map
        (fun s => FailureEntry.mk s (fetch s).msgD) ∧
    (scrape_run fetch outdir seasons).1.length +
        (scrape_run fetch outdir seasons).2.length = seasons.length := by
  induction seasons with
  | nil => exact ⟨rfl, rfl, rfl⟩
  | cons s rest ih =>
    obtain ⟨ih1, ih2, ih3⟩ := ih
    cases hfs : fetch s with
    | ok n =>
      have h1 : scrape_run fetch outdir (s :: rest) =
          (RunLogEntry.mk s n (outFile outdir s) :: (scrape_run fetch outdir rest).1,
            (scrape_run fetch outdir rest).2) := by
        simp [scrape_run, hfs]
      refine ⟨?_, ?_, ?_⟩
      · rw [h1]
        rw [show (scrape_run fetch outdir rest).1 =
          (rest.filter (fun s => (fetch s).isOk)).map
            (fun s => RunLogEntry.mk s (fetch s).rowcountD (outFile outdir s)) from ih1]
        rw [List.filter_cons]
        simp [hfs, FetchOutcome.isOk, FetchOutcome.rowcountD]
      · rw [h1]
        rw [show (scrape_run fetch outdir rest).2 =
          (rest.filter (fun s => !(fetch s).isOk)).map
            (fun s => FailureEntry.mk s (fetch s).msgD) from ih2]
        rw [List.filter_cons]
        simp [hfs, FetchOutcome.isOk, FetchOutcome.msgD]
      · rw [h1]
        simp only [List.length_cons]
        omega
    | err m =>
      have h1 : scrape_run fetch outdir (s :: rest) =
          ((scrape_run fetch outdir rest).1,
            FailureEntry.mk s m :: (scrape_run fetch outdir rest).2) := by
        simp [scrape_run, hfs]
      refine ⟨?_, ?_, ?_⟩
      · rw [h1]
        rw [show (scrape_run fetch outdir rest).1 =
          (rest.filter (fun s => (fetch s).isOk)).map
            (fun s => RunLogEntry.mk s (fetch s).rowcountD (outFile outdir s)) from ih1]
        rw [List.filter_cons]
        simp [hfs, FetchOutcome.isOk, FetchOutcome.rowcountD]
      · rw [h1]
        rw [show (scrape_run fetch outdir rest).2 =
          (rest.filter (fun s => !(fetch s).isOk)).map
            (fun s => FailureEntry.mk s (fetch s).msgD) from ih2]
        rw [List.filter_cons]
        simp [hfs, FetchOutcome.isOk, FetchOutcome.msgD]
      · rw [h1]
        simp only [List.length_cons]
        omega

end PLSpend
